import Mathlib

/-!
Verification development for the `tts-external-api` crate: a JSON-over-TCP
client for Tabletop Simulator's External Editor API.

The development shallowly embeds the protocol layer of the crate:
* `Value` models `serde_json::Value` restricted to the fragment the protocol
  exercises (numbers are integers; floating-point numbers never appear in the
  protocol's discriminants or the payloads proved about here).
* `json_from_str` models `serde_json::from_str::<Value>` on that fragment
  (string escapes `\uXXXX` and fractional/exponent number forms are outside
  the modelled fragment and are parsed as failures).
* `Message` / `Answer` and their (de)serializers are translated from
  `src/messages.rs`, including the hand-written `Serialize for Message`,
  the hand-written `Deserialize for Answer` with its `unwrap`/`panic!` calls
  (modelled by the `Panicky` outcome type), and `deserialize_json_string`.
* `ExternalEditorApi.read` / `.wait` and the command facade functions are
  translated from `src/tcp.rs` and `src/messages.rs`; the inbound TCP stream
  is modelled as a list of inbound connection outcomes, and the outbound
  connect as a boolean (`connectOk`).
-/

/-- Model of `serde_json::Value` (integer-only numbers; objects keep their
fields as an ordered association list). -/
inductive Value where
  | null
  | bool (b : Bool)
  | num (n : Int)
  | str (s : String)
  | arr (xs : List Value)
  | obj (fields : List (String × Value))

/-- Lookup of a field in an object's field list. The last occurrence of a key
wins, matching `serde_json`'s `Map` in which a later insert overwrites an
earlier one. -/
def getField (fields : List (String × Value)) (k : String) : Option Value :=
  match fields with
  | [] => none
  | (k2, v) :: rest =>
    match getField rest k with
    | some v2 => some v2
    | none => if k2 = k then some v else none

/-- Model of `serde_json::Value::get` with a string index: looks a key up in
an object, `None` on any other value. -/
def Value.get (v : Value) (k : String) : Option Value :=
  match v with
  | .obj fields => getField fields k
  | _ => none

/-- Model of `serde_json::Value::as_u64`: a non-negative integer number
converts, everything else is `None`. -/
def Value.as_u64 (v : Value) : Option Nat :=
  match v with
  | .num n => if 0 ≤ n then some n.toNat else none
  | _ => none

/-! ### A model of `serde_json` text parsing (`from_str`) -/

/-- Skip JSON whitespace. -/
def skipWs : List Char → List Char
  | [] => []
  | c :: cs =>
    if c = ' ' ∨ c = '\t' ∨ c = '\n' ∨ c = '\r' then skipWs cs else c :: cs

/-- The left brace character. -/
def lbrace : Char := Char.ofNat 123

/-- The right brace character. -/
def rbrace : Char := Char.ofNat 125

/-- Decode a one-character string escape (`\uXXXX` is outside the modelled
fragment). -/
def escChar (e : Char) : Option Char :=
  if e = 'n' then some '\n'
  else if e = 't' then some '\t'
  else if e = 'r' then some '\r'
  else if e = 'b' then some (Char.ofNat 8)
  else if e = 'f' then some (Char.ofNat 12)
  else if e = '"' ∨ e = '\\' ∨ e = '/' then some e
  else none

/-- Parse the body of a JSON string, after the opening quote, up to and
including the closing quote. Returns the decoded characters and the rest of
the input. Control characters below 0x20 are rejected, as in JSON. -/
def parseStringBody : List Char → Option (List Char × List Char)
  | [] => none
  | '"' :: cs => some ([], cs)
  | '\\' :: [] => none
  | '\\' :: e :: cs =>
    match escChar e with
    | none => none
    | some ec =>
      match parseStringBody cs with
      | none => none
      | some (s, r) => some (ec :: s, r)
  | c :: cs =>
    if c.toNat < 32 then none
    else
      match parseStringBody cs with
      | none => none
      | some (s, r) => some (c :: s, r)

/-- Split a leading run of decimal digits off the input. -/
def takeDigits (cs : List Char) : List Char × List Char :=
  cs.span Char.isDigit

/-- Numeric value of a digit run. -/
def digitsVal (ds : List Char) : Nat :=
  Nat.ofDigits 10 ((ds.map fun c => c.toNat - 48).reverse)

/-- Parse the digit part of a JSON number. Integers only: a fractional part
or an exponent is outside the modelled fragment and parses as a failure.
Leading zeros are rejected as in JSON. -/
def parseNumCore (cs : List Char) : Option (Nat × List Char) :=
  match takeDigits cs with
  | ([], _) => none
  | (ds, rest) =>
    if 1 < ds.length ∧ ds.head? = some '0' then none
    else
      match rest with
      | '.' :: _ => none
      | 'e' :: _ => none
      | 'E' :: _ => none
      | _ => some (digitsVal ds, rest)

/-- Parse a JSON number, dispatching on an optional leading minus sign. -/
def parseNum (cs : List Char) : Option (Value × List Char) :=
  match cs with
  | '-' :: r => (parseNumCore r).map fun p => (Value.num (-(p.1 : Int)), p.2)
  | _ => (parseNumCore cs).map fun p => (Value.num (p.1 : Int), p.2)

mutual

/-- Parse one JSON value (fuelled recursion; the fuel used by
`json_from_str` always suffices since every recursive step consumes input). -/
def parseVal : Nat → List Char → Option (Value × List Char)
  | 0, _ => none
  | fuel + 1, cs =>
    match skipWs cs with
    | 'n' :: 'u' :: 'l' :: 'l' :: r => some (.null, r)
    | 't' :: 'r' :: 'u' :: 'e' :: r => some (.bool true, r)
    | 'f' :: 'a' :: 'l' :: 's' :: 'e' :: r => some (.bool false, r)
    | '"' :: r =>
      match parseStringBody r with
      | some (s, r2) => some (.str (String.mk s), r2)
      | none => none
    | '[' :: r =>
      match skipWs r with
      | ']' :: r2 => some (.arr [], r2)
      | r1 =>
        match parseElems fuel r1 with
        | some (vs, r2) => some (.arr vs, r2)
        | none => none
    | c :: r =>
      if c = lbrace then
        match skipWs r with
        | c2 :: r2 =>
          if c2 = rbrace then some (.obj [], r2)
          else
            match parseMembers fuel (c2 :: r2) with
            | some (kvs, r3) => some (.obj kvs, r3)
            | none => none
        | [] => none
      else parseNum (c :: r)
    | [] => none

/-- Parse a comma-separated list of array elements up to the closing
bracket. -/
def parseElems : Nat → List Char → Option (List Value × List Char)
  | 0, _ => none
  | fuel + 1, cs =>
    match parseVal fuel cs with
    | none => none
    | some (v, r) =>
      match skipWs r with
      | ',' :: r2 =>
        match parseElems fuel r2 with
        | some (vs, r3) => some (v :: vs, r3)
        | none => none
      | ']' :: r2 => some ([v], r2)
      | _ => none

/-- Parse a comma-separated list of object members up to the closing
brace. -/
def parseMembers : Nat → List Char → Option (List (String × Value) × List Char)
  | 0, _ => none
  | fuel + 1, cs =>
    match cs with
    | '"' :: r =>
      match parseStringBody r with
      | none => none
      | some (k, r2) =>
        match skipWs r2 with
        | ':' :: r3 =>
          match parseVal fuel r3 with
          | none => none
          | some (v, r4) =>
            match skipWs r4 with
            | ',' :: r5 =>
              match parseMembers fuel (skipWs r5) with
              | some (kvs, r6) => some ((String.mk k, v) :: kvs, r6)
              | none => none
            | c :: r5 =>
              if c = rbrace then some ([(String.mk k, v)], r5) else none
            | [] => none
        | _ => none
    | _ => none

end

/-- Model of `serde_json::from_str::<Value>`: parse one value and require the
rest of the input to be whitespace. -/
def json_from_str (s : String) : Option Value :=
  match parseVal (s.length + 1) s.data with
  | some (v, rest) => if skipWs rest = [] then some v else none
  | none => none

/-! ### Outgoing messages (`Message`, `src/messages.rs`) -/

/-- `struct MessageGetScripts {}` -/
structure MessageGetScripts where

/-- `struct MessageReload { script_states: Value }` (wire name
`scriptStates`). -/
structure MessageReload where
  script_states : Value

/-- `struct MessageCustomMessage { custom_message: Value }` (wire name
`customMessage`). -/
structure MessageCustomMessage where
  custom_message : Value

/-- `struct MessageExecute { return_id: u64, guid: String, script: String }`
(wire names `returnID`, `guid`, `script`). -/
structure MessageExecute where
  return_id : Nat
  guid : String
  script : String

/-- `enum Message` -/
inductive Message where
  | MessageGetScripts (t : MessageGetScripts)
  | MessageReload (t : MessageReload)
  | MessageCustomMessage (t : MessageCustomMessage)
  | MessageExecute (t : MessageExecute)

/-- `MessageGetScripts::new` -/
def MessageGetScripts.new : MessageGetScripts := ⟨⟩

/-- `MessageReload::new` -/
def MessageReload.new (script_states : Value) : MessageReload :=
  ⟨script_states⟩

/-- `MessageCustomMessage::new` -/
def MessageCustomMessage.new (custom_message : Value) : MessageCustomMessage :=
  ⟨custom_message⟩

/-- `MessageExecute::new`: executes globally, with the constant
`return_id = 5` and `guid = "-1"`. -/
def MessageExecute.new (script : String) : MessageExecute :=
  ⟨5, "-1", script⟩

/-- `MessageExecute::new_object` -/
def MessageExecute.new_object (script : String) (guid : String) : MessageExecute :=
  ⟨5, guid, script⟩

/-- Field list written by the derived `Serialize` of `MessageGetScripts`. -/
def MessageGetScripts.serializeFields (_t : MessageGetScripts) :
    List (String × Value) := []

/-- Field list written by the derived `Serialize` of `MessageReload`:
the `script_states` field under its serde rename `scriptStates`. -/
def MessageReload.serializeFields (t : MessageReload) :
    List (String × Value) := [("scriptStates", t.script_states)]

/-- Field list written by the derived `Serialize` of `MessageCustomMessage`:
the `custom_message` field under its serde rename `customMessage`. -/
def MessageCustomMessage.serializeFields (t : MessageCustomMessage) :
    List (String × Value) := [("customMessage", t.custom_message)]

/-- Field list written by the derived `Serialize` of `MessageExecute`. -/
def MessageExecute.serializeFields (t : MessageExecute) :
    List (String × Value) :=
  [("returnID", .num t.return_id), ("guid", .str t.guid),
    ("script", .str t.script)]

/-- The hand-written `impl Serialize for Message`: one flat map whose first
entry is `messageID` (0–3 picked by variant identity) followed by the
variant's own fields flattened into the same map
(`FlatMapSerializer`). -/
def Message.serialize (m : Message) : Value :=
  let id_ : Int :=
    match m with
    | .MessageGetScripts _ => 0
    | .MessageReload _ => 1
    | .MessageCustomMessage _ => 2
    | .MessageExecute _ => 3
  let fields : List (String × Value) :=
    match m with
    | .MessageGetScripts t => t.serializeFields
    | .MessageReload t => t.serializeFields
    | .MessageCustomMessage t => t.serializeFields
    | .MessageExecute t => t.serializeFields
  .obj (("messageID", .num id_) :: fields)

/-! ### Incoming messages (`Answer`, `src/messages.rs`) -/

/-- `struct AnswerNewObject { script_states: Value }` (wire `scriptStates`). -/
structure AnswerNewObject where
  script_states : Value

/-- `struct AnswerReload { save_path: String, script_states: Value }`
(wire `savePath`, `scriptStates`). -/
structure AnswerReload where
  save_path : String
  script_states : Value

/-- `struct AnswerPrint { message: String }` (wire `message`). -/
structure AnswerPrint where
  message : String

/-- `struct AnswerError { error: String, guid: String,
error_message_prefix: String }` (wire `error`, `guid`,
`errorMessagePrefix`). -/
structure AnswerError where
  error : String
  guid : String
  error_message_prefix : String

/-- `struct AnswerCustomMessage { custom_message: Value }` (wire
`customMessage`). -/
structure AnswerCustomMessage where
  custom_message : Value

/-- `struct AnswerReturn { return_id: u64, return_value: Value }` (wire
`returnID`, `returnValue`; the latter via `deserialize_json_string` with a
`default`). -/
structure AnswerReturn where
  return_id : Nat
  return_value : Value

/-- `struct AnswerGameSaved {}` -/
structure AnswerGameSaved where

/-- `struct AnswerObjectCreated { guid: String }` (wire `guid`). -/
structure AnswerObjectCreated where
  guid : String

/-- `enum Answer` -/
inductive Answer where
  | AnswerNewObject (a : AnswerNewObject)
  | AnswerReload (a : AnswerReload)
  | AnswerPrint (a : AnswerPrint)
  | AnswerError (a : AnswerError)
  | AnswerCustomMessage (a : AnswerCustomMessage)
  | AnswerReturn (a : AnswerReturn)
  | AnswerGameSaved (a : AnswerGameSaved)
  | AnswerObjectCreated (a : AnswerObjectCreated)

/-- `impl TryFrom<Answer> for AnswerReload`, with the `Err(Error::AnswerError)`
case modelled as `none`. -/
def AnswerReload.try_from : Answer → Option AnswerReload
  | .AnswerReload m => some m
  | _ => none

/-- `impl TryFrom<Answer> for AnswerReturn`, with the `Err(Error::AnswerError)`
case modelled as `none`. -/
def AnswerReturn.try_from : Answer → Option AnswerReturn
  | .AnswerReturn m => some m
  | _ => none

/-- `impl TryFrom<Answer> for AnswerPrint`, with the `Err(Error::AnswerError)`
case modelled as `none`. -/
def AnswerPrint.try_from : Answer → Option AnswerPrint
  | .AnswerPrint m => some m
  | _ => none

/-- `fn deserialize_json_string`: `Option::deserialize` maps JSON null to
`None` (giving `Value::Null`); a JSON string is re-parsed as JSON and falls
back to the raw string when that fails; any other value passes through.
(The source returns `Result`, but no branch of it produces an error, so the
model is total.) -/
def deserialize_json_string (v : Value) : Value :=
  match v with
  | .null => .null
  | .str s => (json_from_str s).getD (.str s)
  | other => other

/-- Derived `Deserialize` of `AnswerNewObject` applied to a `Value`. -/
def AnswerNewObject.deserialize (v : Value) : Except String AnswerNewObject :=
  match v with
  | .obj fields =>
    match getField fields "scriptStates" with
    | some ss => .ok ⟨ss⟩
    | none => .error "missing field scriptStates"
  | _ => .error "invalid type"

/-- Derived `Deserialize` of `AnswerReload` applied to a `Value`. -/
def AnswerReload.deserialize (v : Value) : Except String AnswerReload :=
  match v with
  | .obj fields =>
    match getField fields "savePath" with
    | some (.str sp) =>
      match getField fields "scriptStates" with
      | some ss => .ok ⟨sp, ss⟩
      | none => .error "missing field scriptStates"
    | some _ => .error "invalid type for savePath"
    | none => .error "missing field savePath"
  | _ => .error "invalid type"

/-- Derived `Deserialize` of `AnswerPrint` applied to a `Value`. -/
def AnswerPrint.deserialize (v : Value) : Except String AnswerPrint :=
  match v with
  | .obj fields =>
    match getField fields "message" with
    | some (.str m) => .ok ⟨m⟩
    | some _ => .error "invalid type for message"
    | none => .error "missing field message"
  | _ => .error "invalid type"

/-- Derived `Deserialize` of `AnswerError` applied to a `Value`. -/
def AnswerError.deserialize (v : Value) : Except String AnswerError :=
  match v with
  | .obj fields =>
    match getField fields "error" with
    | some (.str e) =>
      match getField fields "guid" with
      | some (.str g) =>
        match getField fields "errorMessagePrefix" with
        | some (.str p) => .ok ⟨e, g, p⟩
        | some _ => .error "invalid type for errorMessagePrefix"
        | none => .error "missing field errorMessagePrefix"
      | some _ => .error "invalid type for guid"
      | none => .error "missing field guid"
    | some _ => .error "invalid type for error"
    | none => .error "missing field error"
  | _ => .error "invalid type"

/-- Derived `Deserialize` of `AnswerCustomMessage` applied to a `Value`. -/
def AnswerCustomMessage.deserialize (v : Value) :
    Except String AnswerCustomMessage :=
  match v with
  | .obj fields =>
    match getField fields "customMessage" with
    | some cm => .ok ⟨cm⟩
    | none => .error "missing field customMessage"
  | _ => .error "invalid type"

/-- Derived `Deserialize` of `AnswerReturn` applied to a `Value`:
`returnID` is a required `u64`; `returnValue` goes through
`deserialize_json_string` and, being `#[serde(default)]`, decodes to
`Value::Null` when the field is absent. -/
def AnswerReturn.deserialize (v : Value) : Except String AnswerReturn :=
  match v with
  | .obj fields =>
    match getField fields "returnID" with
    | some ridv =>
      match ridv.as_u64 with
      | some rid =>
        match getField fields "returnValue" with
        | some rv => .ok ⟨rid, deserialize_json_string rv⟩
        | none => .ok ⟨rid, .null⟩
      | none => .error "invalid type for returnID"
    | none => .error "missing field returnID"
  | _ => .error "invalid type"

/-- Derived `Deserialize` of `AnswerGameSaved` applied to a `Value`. -/
def AnswerGameSaved.deserialize (v : Value) : Except String AnswerGameSaved :=
  match v with
  | .obj _ => .ok ⟨⟩
  | _ => .error "invalid type"

/-- Derived `Deserialize` of `AnswerObjectCreated` applied to a `Value`. -/
def AnswerObjectCreated.deserialize (v : Value) :
    Except String AnswerObjectCreated :=
  match v with
  | .obj fields =>
    match getField fields "guid" with
    | some (.str g) => .ok ⟨g⟩
    | some _ => .error "invalid type for guid"
    | none => .error "missing field guid"
  | _ => .error "invalid type"

/-- Outcome of Rust code that either returns a value or panics. -/
inductive Panicky (α : Type) where
  | ok (a : α)
  | panicked (msg : String)

/-- `.unwrap()` on a `Result`, then wrap into an `Answer` variant: `Ok`
passes through, `Err` panics. -/
def unwrapMap {α : Type} (f : α → Answer) : Except String α → Panicky Answer
  | .ok a => .ok (f a)
  | .error _ => .panicked "unwrap on Err"

/-- The hand-written `impl Deserialize for Answer`: read the whole payload as
a `Value`, `unwrap` the `messageID` as a `u64` (panicking when absent or not
a `u64`), dispatch on it with each variant's derived deserializer
`unwrap`ped, and `panic!("unsupported id ...")` on any other
discriminant. -/
def Answer.deserialize (v : Value) : Panicky Answer :=
  match (v.get "messageID").bind Value.as_u64 with
  | none => .panicked "unwrap on None"
  | some 0 => unwrapMap Answer.AnswerNewObject (AnswerNewObject.deserialize v)
  | some 1 => unwrapMap Answer.AnswerReload (AnswerReload.deserialize v)
  | some 2 => unwrapMap Answer.AnswerPrint (AnswerPrint.deserialize v)
  | some 3 => unwrapMap Answer.AnswerError (AnswerError.deserialize v)
  | some 4 =>
    unwrapMap Answer.AnswerCustomMessage (AnswerCustomMessage.deserialize v)
  | some 5 => unwrapMap Answer.AnswerReturn (AnswerReturn.deserialize v)
  | some 6 => unwrapMap Answer.AnswerGameSaved (AnswerGameSaved.deserialize v)
  | some 7 =>
    unwrapMap Answer.AnswerObjectCreated (AnswerObjectCreated.deserialize v)
  | some _ => .panicked "unsupported id"

/-! ### Transport and selective wait (`src/tcp.rs`) -/

/-- One inbound connection on the listener: either a full payload read to
end-of-stream, or an accept/read failure (an `io` error, which the source
`unwrap`s). -/
inductive Inbound where
  | payload (s : String)
  | ioFail

namespace ExternalEditorApi

/-- `ExternalEditorApi::read`: accept one connection (`unwrap` on failure),
read the whole payload, and `serde_json::from_str::<Answer>(..).unwrap()`:
a parse failure panics, and `Answer`'s own deserializer panics as modelled
in `Answer.deserialize`. -/
def read : Inbound → Panicky Answer
  | .payload s =>
    match json_from_str s with
    | none => .panicked "from_str unwrap"
    | some v => Answer.deserialize v
  | .ioFail => .panicked "io unwrap"

/-- Outcome of `ExternalEditorApi::wait` run against a finite inbound
stream: the matching answer together with the part of the stream not yet
consumed, a panic bubbling up from `read`, or `blocked` when the stream is
exhausted (the real call would block forever waiting for a connection). -/
inductive WaitOutcome (α : Type) where
  | found (a : α) (rest : List Inbound)
  | panicked (msg : String)
  | blocked

/-- `ExternalEditorApi::wait<T>`: loop reading answers, returning the first
one `T::try_from` accepts; non-matching answers are dropped and the loop
continues. -/
def wait {α : Type} (tf : Answer → Option α) : List Inbound → WaitOutcome α
  | [] => .blocked
  | i :: rest =>
    match read i with
    | .panicked m => .panicked m
    | .ok a =>
      match tf a with
      | some t => .found t rest
      | none => wait tf rest

/-- `ExternalEditorApi::send`: `TcpStream::connect` either fails (the `?`
propagates the `io::Error`) or succeeds, in which case the serialized
message is written whole and flushed. The model records the bytes written
as the serialized `Value`. -/
def send (connectOk : Bool) (m : Message) : Except Unit Value :=
  if connectOk then .ok (Message.serialize m) else .error ()

/-- Outcome of a command facade call (`impl ExternalEditorApi` in
`src/messages.rs`) against a finite inbound stream. `ioError` carries the
stream as it was left (nothing consumed); `ok` carries the unconsumed
remainder. -/
inductive FacadeResult (α : Type) where
  | ok (a : α) (rest : List Inbound)
  | ioError (rest : List Inbound)
  | panicked (msg : String)
  | blocked

/-- `Ok(self.wait())`: embed a wait outcome into a facade outcome. -/
def toFacade {α : Type} : WaitOutcome α → FacadeResult α
  | .found a rest => .ok a rest
  | .panicked m => .panicked m
  | .blocked => .blocked

/-- `ExternalEditorApi::get_scripts`: send `MessageGetScripts` (`?` on the
connect error), then `Ok(self.wait::<AnswerReload>())`. -/
def get_scripts (connectOk : Bool) (stream : List Inbound) :
    FacadeResult AnswerReload :=
  match send connectOk (Message.MessageGetScripts MessageGetScripts.new) with
  | .error _ => .ioError stream
  | .ok _ => toFacade (wait AnswerReload.try_from stream)

/-- `ExternalEditorApi::reload`: send `MessageReload` (`?` on the connect
error), then `Ok(self.wait::<AnswerReload>())`. -/
def reload (connectOk : Bool) (script_states : Value)
    (stream : List Inbound) : FacadeResult AnswerReload :=
  match send connectOk (Message.MessageReload (MessageReload.new script_states)) with
  | .error _ => .ioError stream
  | .ok _ => toFacade (wait AnswerReload.try_from stream)

/-- `ExternalEditorApi::custom_message`: send `MessageCustomMessage` (`?` on
the connect error), then return `Ok(())` immediately — no wait. -/
def custom_message (connectOk : Bool) (message : Value)
    (stream : List Inbound) : FacadeResult Unit :=
  match send connectOk (Message.MessageCustomMessage (MessageCustomMessage.new message)) with
  | .error _ => .ioError stream
  | .ok _ => .ok () stream

/-- `ExternalEditorApi::execute`: send `MessageExecute::new` (`?` on the
connect error), then `Ok(self.wait::<AnswerReturn>())`. -/
def execute (connectOk : Bool) (script : String)
    (stream : List Inbound) : FacadeResult AnswerReturn :=
  match send connectOk (Message.MessageExecute (MessageExecute.new script)) with
  | .error _ => .ioError stream
  | .ok _ => toFacade (wait AnswerReturn.try_from stream)

/-- `ExternalEditorApi::execute_on_object`: send `MessageExecute::new_object`
(`?` on the connect error), then `Ok(self.wait::<AnswerReturn>())`. -/
def execute_on_object (connectOk : Bool) (script : String) (guid : String)
    (stream : List Inbound) : FacadeResult AnswerReturn :=
  match send connectOk (Message.MessageExecute (MessageExecute.new_object script guid)) with
  | .error _ => .ioError stream
  | .ok _ => toFacade (wait AnswerReturn.try_from stream)

end ExternalEditorApi

/-! ### Helper lemmas about `wait` -/

/-- A successfully decoded answer that does not match is skipped: the wait
continues on the rest of the stream. -/
lemma wait_cons_skip {α : Type} (tf : Answer → Option α) (i : Inbound)
    (rest : List Inbound) (a : Answer)
    (h1 : ExternalEditorApi.read i = .ok a) (h2 : tf a = none) :
    ExternalEditorApi.wait tf (i :: rest) = ExternalEditorApi.wait tf rest := by
  simp [ExternalEditorApi.wait, h1, h2]

/-- A successfully decoded answer that matches ends the wait, leaving the
rest of the stream unread. -/
lemma wait_cons_found {α : Type} (tf : Answer → Option α) (i : Inbound)
    (rest : List Inbound) (a : Answer) (t : α)
    (h1 : ExternalEditorApi.read i = .ok a) (h2 : tf a = some t) :
    ExternalEditorApi.wait tf (i :: rest) = .found t rest := by
  simp [ExternalEditorApi.wait, h1, h2]

/-- A read that panics aborts the wait at once. -/
lemma wait_cons_panicked {α : Type} (tf : Answer → Option α) (i : Inbound)
    (rest : List Inbound) (m : String)
    (h1 : ExternalEditorApi.read i = .panicked m) :
    ExternalEditorApi.wait tf (i :: rest) = .panicked m := by
  simp [ExternalEditorApi.wait, h1]

/-- A whole prefix of decodable-but-non-matching events is skipped. -/
lemma wait_append_skip {α : Type} (tf : Answer → Option α)
    (pre rest : List Inbound)
    (h : ∀ i ∈ pre, ∃ a, ExternalEditorApi.read i = .ok a ∧ tf a = none) :
    ExternalEditorApi.wait tf (pre ++ rest) = ExternalEditorApi.wait tf rest := by
  induction pre with
  | nil => rfl
  | cons i pre ih =>
    obtain ⟨a, h1, h2⟩ := h i (List.mem_cons_self i pre)
    rw [List.cons_append, wait_cons_skip tf i (pre ++ rest) a h1 h2]
    exact ih fun j hj => h j (List.mem_cons_of_mem i hj)

/-! ### Claims -/

/-- C1 (amended): decoding a payload whose `messageID` reads as a `u64`
greater than 7 panics with `unsupported id` — a process-fatal abort, not a
recoverable decode-error value — so there is in particular no
forward-compatible unknown-variant result. -/
theorem c1_amended_thm (v : Value) (n : Nat)
    (h : (v.get "messageID").bind Value.as_u64 = some (n + 8)) :
    Answer.deserialize v = .panicked "unsupported id" := by
  unfold Answer.deserialize
  rw [h]
  rfl

/-- C1 counterexample: on the concrete payload with `messageID = 8` the
decoder panics; it does not return a recoverable error value (the decode
outcome is a panic, and `Answer::deserialize`'s error path is never taken
for an out-of-range discriminant). -/
theorem c1_counterexample :
    Answer.deserialize (Value.obj [("messageID", Value.num 8)])
      = .panicked "unsupported id" := rfl

/-- C1 witness: the amended claim at the concrete payload
`messageID = 8`. -/
theorem c1_amended_witness :
    Answer.deserialize (Value.obj [("messageID", Value.num 8)])
      = Panicky.panicked "unsupported id" :=
  c1_amended_thm (Value.obj [("messageID", Value.num 8)]) 0 rfl

/-- C2: decoding the `ReturnValue` (`AnswerReturn`) event is two-stage.
When the wire field `returnValue` is a string that itself parses as JSON,
the decoded `return_value` is the parsed value; when the string is not
valid JSON, the decoded `return_value` is the raw string; when the field is
absent or null, the decoded `return_value` is JSON null — never an
error. -/
theorem c2_thm (rid : Nat) (s t : String) (v : Value)
    (hs : json_from_str s = some v) (ht : json_from_str t = none) :
    Answer.deserialize (Value.obj [("messageID", Value.num 5),
        ("returnID", Value.num rid), ("returnValue", Value.str s)])
      = .ok (.AnswerReturn ⟨rid, v⟩)
    ∧ Answer.deserialize (Value.obj [("messageID", Value.num 5),
        ("returnID", Value.num rid), ("returnValue", Value.str t)])
      = .ok (.AnswerReturn ⟨rid, .str t⟩)
    ∧ Answer.deserialize (Value.obj [("messageID", Value.num 5),
        ("returnID", Value.num rid)])
      = .ok (.AnswerReturn ⟨rid, .null⟩)
    ∧ Answer.deserialize (Value.obj [("messageID", Value.num 5),
        ("returnID", Value.num rid), ("returnValue", Value.null)])
      = .ok (.AnswerReturn ⟨rid, .null⟩) := by
  refine ⟨?_, ?_, ?_, ?_⟩ <;>
    simp [Answer.deserialize, AnswerReturn.deserialize, Value.get, getField,
      Value.as_u64, deserialize_json_string, unwrapMap, hs, ht]

/-- C2 witness: the two-stage decode at the spec's own examples: wire value
`"5"` decodes to the number `5`, wire value `"hello"` stays the string
`"hello"`, and an absent `returnValue` decodes to null. -/
theorem c2_witness :
    json_from_str "5" = some (Value.num 5)
    ∧ json_from_str "hello" = none
    ∧ Answer.deserialize (Value.obj [("messageID", Value.num 5),
        ("returnID", Value.num 5), ("returnValue", Value.str "5")])
      = .ok (.AnswerReturn ⟨5, Value.num 5⟩)
    ∧ Answer.deserialize (Value.obj [("messageID", Value.num 5),
        ("returnID", Value.num 5), ("returnValue", Value.str "hello")])
      = .ok (.AnswerReturn ⟨5, Value.str "hello"⟩)
    ∧ Answer.deserialize (Value.obj [("messageID", Value.num 5),
        ("returnID", Value.num 5)])
      = .ok (.AnswerReturn ⟨5, Value.null⟩) := by
  refine ⟨rfl, rfl, ?_, ?_, ?_⟩
  · exact (c2_thm 5 "5" "hello" (Value.num 5) rfl rfl).1
  · exact (c2_thm 5 "5" "hello" (Value.num 5) rfl rfl).2.1
  · exact (c2_thm 5 "5" "hello" (Value.num 5) rfl rfl).2.2.1

/-- C3: when a `ReturnValue` event is preceded by events that decode fine
but do not narrow to `AnswerReturn`, the selective wait returns the
`ReturnValue` and leaves exactly the stream after it: every preceding
non-matching event has been consumed and discarded, so no later read or
wait can observe it. -/
theorem c3_thm (pre rest : List Inbound) (x : Inbound) (r : AnswerReturn)
    (hpre : ∀ i ∈ pre, ∃ a, ExternalEditorApi.read i = .ok a ∧
        AnswerReturn.try_from a = none)
    (hx : ∃ a, ExternalEditorApi.read x = .ok a ∧
        AnswerReturn.try_from a = some r) :
    ExternalEditorApi.wait AnswerReturn.try_from (pre ++ x :: rest)
      = .found r rest := by
  obtain ⟨a, h1, h2⟩ := hx
  rw [wait_append_skip _ pre _ hpre]
  exact wait_cons_found _ x rest a r h1 h2

/-- C3 witness: the spec's sequence [Printed, Printed, ScriptError,
ReturnValue]: the wait returns the `ReturnValue` and the remaining stream is
empty — the two Printed events and the ScriptError are gone. -/
theorem c3_witness :
    ExternalEditorApi.wait AnswerReturn.try_from
        [Inbound.payload "\x7b\"messageID\": 2, \"message\": \"hi\"\x7d",
         Inbound.payload "\x7b\"messageID\": 2, \"message\": \"hi\"\x7d",
         Inbound.payload "\x7b\"messageID\": 3, \"error\": \"e\", \"guid\": \"-1\", \"errorMessagePrefix\": \"p\"\x7d",
         Inbound.payload "\x7b\"messageID\": 5, \"returnID\": 5, \"returnValue\": \"2\"\x7d"]
      = .found ⟨5, Value.num 2⟩ [] := by
  refine c3_thm
    [Inbound.payload "\x7b\"messageID\": 2, \"message\": \"hi\"\x7d",
     Inbound.payload "\x7b\"messageID\": 2, \"message\": \"hi\"\x7d",
     Inbound.payload "\x7b\"messageID\": 3, \"error\": \"e\", \"guid\": \"-1\", \"errorMessagePrefix\": \"p\"\x7d"]
    [] (Inbound.payload "\x7b\"messageID\": 5, \"returnID\": 5, \"returnValue\": \"2\"\x7d")
    ⟨5, Value.num 2⟩ ?_ ⟨Answer.AnswerReturn ⟨5, Value.num 2⟩, rfl, rfl⟩
  intro i hi
  simp only [List.mem_cons, List.not_mem_nil, or_false] at hi
  rcases hi with rfl | rfl | rfl
  · exact ⟨Answer.AnswerPrint ⟨"hi"⟩, rfl, rfl⟩
  · exact ⟨Answer.AnswerPrint ⟨"hi"⟩, rfl, rfl⟩
  · exact ⟨Answer.AnswerError ⟨"e", "-1", "p"⟩, rfl, rfl⟩

/-- C4: events are matched in exact arrival order. If `ReturnValue(A)`
arrives before `ReturnValue(B)` — with only non-matching events before and
between them — then the first selective wait returns `A` and a second
sequential wait on the remaining stream returns `B` (FIFO, no reordering or
priority). -/
theorem c4_thm (pre1 pre2 rest : List Inbound) (x y : Inbound)
    (A B : AnswerReturn)
    (h1 : ∀ i ∈ pre1, ∃ a, ExternalEditorApi.read i = .ok a ∧
        AnswerReturn.try_from a = none)
    (h2 : ∀ i ∈ pre2, ∃ a, ExternalEditorApi.read i = .ok a ∧
        AnswerReturn.try_from a = none)
    (hx : ∃ a, ExternalEditorApi.read x = .ok a ∧
        AnswerReturn.try_from a = some A)
    (hy : ∃ a, ExternalEditorApi.read y = .ok a ∧
        AnswerReturn.try_from a = some B) :
    ExternalEditorApi.wait AnswerReturn.try_from
        (pre1 ++ x :: (pre2 ++ y :: rest))
      = .found A (pre2 ++ y :: rest)
    ∧ ExternalEditorApi.wait AnswerReturn.try_from (pre2 ++ y :: rest)
      = .found B rest := by
  obtain ⟨a, ha1, ha2⟩ := hx
  obtain ⟨b, hb1, hb2⟩ := hy
  constructor
  · rw [wait_append_skip _ pre1 _ h1]
    exact wait_cons_found _ x _ a A ha1 ha2
  · rw [wait_append_skip _ pre2 _ h2]
    exact wait_cons_found _ y _ b B hb1 hb2

/-- C4 witness: with `ReturnValue` payloads carrying `2` then `3`
interleaved with a Printed and a ScriptError event, the first wait returns
the value `2` and the second wait on the remainder returns `3`. -/
theorem c4_witness :
    ExternalEditorApi.wait AnswerReturn.try_from
        [Inbound.payload "\x7b\"messageID\": 2, \"message\": \"hi\"\x7d",
         Inbound.payload "\x7b\"messageID\": 5, \"returnID\": 5, \"returnValue\": \"2\"\x7d",
         Inbound.payload "\x7b\"messageID\": 3, \"error\": \"e\", \"guid\": \"-1\", \"errorMessagePrefix\": \"p\"\x7d",
         Inbound.payload "\x7b\"messageID\": 5, \"returnID\": 5, \"returnValue\": \"3\"\x7d"]
      = .found ⟨5, Value.num 2⟩
          [Inbound.payload "\x7b\"messageID\": 3, \"error\": \"e\", \"guid\": \"-1\", \"errorMessagePrefix\": \"p\"\x7d",
           Inbound.payload "\x7b\"messageID\": 5, \"returnID\": 5, \"returnValue\": \"3\"\x7d"]
    ∧ ExternalEditorApi.wait AnswerReturn.try_from
        [Inbound.payload "\x7b\"messageID\": 3, \"error\": \"e\", \"guid\": \"-1\", \"errorMessagePrefix\": \"p\"\x7d",
         Inbound.payload "\x7b\"messageID\": 5, \"returnID\": 5, \"returnValue\": \"3\"\x7d"]
      = .found ⟨5, Value.num 3⟩ [] := by
  refine c4_thm
    [Inbound.payload "\x7b\"messageID\": 2, \"message\": \"hi\"\x7d"]
    [Inbound.payload "\x7b\"messageID\": 3, \"error\": \"e\", \"guid\": \"-1\", \"errorMessagePrefix\": \"p\"\x7d"]
    []
    (Inbound.payload "\x7b\"messageID\": 5, \"returnID\": 5, \"returnValue\": \"2\"\x7d")
    (Inbound.payload "\x7b\"messageID\": 5, \"returnID\": 5, \"returnValue\": \"3\"\x7d")
    ⟨5, Value.num 2⟩ ⟨5, Value.num 3⟩ ?_ ?_
    ⟨Answer.AnswerReturn ⟨5, Value.num 2⟩, rfl, rfl⟩
    ⟨Answer.AnswerReturn ⟨5, Value.num 3⟩, rfl, rfl⟩
  · intro i hi
    simp only [List.mem_cons, List.not_mem_nil, or_false] at hi
    rcases hi with rfl
    exact ⟨Answer.AnswerPrint ⟨"hi"⟩, rfl, rfl⟩
  · intro i hi
    simp only [List.mem_cons, List.not_mem_nil, or_false] at hi
    rcases hi with rfl
    exact ⟨Answer.AnswerError ⟨"e", "-1", "p"⟩, rfl, rfl⟩

/-- C5: encoding any `Message` variant yields a single flat JSON object
whose `messageID` is fixed by variant identity alone (GetScripts 0,
Reload 1, CustomMessage 2, Execute 3), with the variant's own fields as
flat siblings in the same object — never nested under a type key. -/
theorem c5_thm :
    Message.serialize (.MessageGetScripts ⟨⟩) = .obj [("messageID", .num 0)]
    ∧ (∀ v : Value, Message.serialize (.MessageReload ⟨v⟩)
        = .obj [("messageID", .num 1), ("scriptStates", v)])
    ∧ (∀ v : Value, Message.serialize (.MessageCustomMessage ⟨v⟩)
        = .obj [("messageID", .num 2), ("customMessage", v)])
    ∧ ∀ (rid : Nat) (g s : String),
        Message.serialize (.MessageExecute ⟨rid, g, s⟩)
          = .obj [("messageID", .num 3), ("returnID", .num rid),
              ("guid", .str g), ("script", .str s)] :=
  ⟨rfl, fun _ => rfl, fun _ => rfl, fun _ _ _ => rfl⟩

/-- C6 counterexample: the encoded Reload command has no `objectStates`
key at all; its object-states payload sits under the wire name
`scriptStates`. -/
theorem c6_counterexample :
    (Message.serialize (.MessageReload (MessageReload.new (Value.arr [])))).get
        "objectStates" = none
    ∧ Message.serialize (.MessageReload (MessageReload.new (Value.arr [])))
      = .obj [("messageID", .num 1), ("scriptStates", Value.arr [])] :=
  ⟨rfl, rfl⟩

/-- C6 (amended): encoding the Reload command serializes its object-states
payload under the wire field name `scriptStates` (the serde rename on
`MessageReload.script_states`), and no `objectStates` key is emitted. -/
theorem c6_amended_thm (v : Value) :
    Message.serialize (.MessageReload (MessageReload.new v))
      = .obj [("messageID", .num 1), ("scriptStates", v)]
    ∧ (Message.serialize (.MessageReload (MessageReload.new v))).get
        "objectStates" = none :=
  ⟨rfl, rfl⟩

/-- C7 counterexample: with a pending inbound event on the stream,
`custom_message` returns unit immediately after sending and consumes
nothing — it does not await any response event. -/
theorem c7_counterexample :
    ExternalEditorApi.custom_message true (Value.obj [])
        [Inbound.payload "\x7b\"messageID\": 4, \"customMessage\": \"m\"\x7d"]
      = .ok ()
        [Inbound.payload "\x7b\"messageID\": 4, \"customMessage\": \"m\"\x7d"] :=
  rfl

/-- C7 (amended): after a successful send, `get_scripts` and `reload` block
on the selective wait for `AnswerReload`, and `execute` and
`execute_on_object` block on the selective wait for `AnswerReturn`,
returning its payload; `custom_message`, by contrast, returns unit
immediately and consumes no inbound event. -/
theorem c7_amended_thm (stream : List Inbound) (v : Value) (s g : String) :
    ExternalEditorApi.get_scripts true stream
      = ExternalEditorApi.toFacade
          (ExternalEditorApi.wait AnswerReload.try_from stream)
    ∧ ExternalEditorApi.reload true v stream
      = ExternalEditorApi.toFacade
          (ExternalEditorApi.wait AnswerReload.try_from stream)
    ∧ ExternalEditorApi.execute true s stream
      = ExternalEditorApi.toFacade
          (ExternalEditorApi.wait AnswerReturn.try_from stream)
    ∧ ExternalEditorApi.execute_on_object true s g stream
      = ExternalEditorApi.toFacade
          (ExternalEditorApi.wait AnswerReturn.try_from stream)
    ∧ ExternalEditorApi.custom_message true v stream = .ok () stream :=
  ⟨rfl, rfl, rfl, rfl, rfl⟩

/-- C8: when the outbound connection cannot be established, every command
facade function returns the connect error at once with the inbound stream
untouched: no inbound event is waited for or consumed, and the result is
never the blocked outcome. -/
theorem c8_thm (stream : List Inbound) (v : Value) (s g : String) :
    ExternalEditorApi.get_scripts false stream = .ioError stream
    ∧ ExternalEditorApi.reload false v stream = .ioError stream
    ∧ ExternalEditorApi.custom_message false v stream = .ioError stream
    ∧ ExternalEditorApi.execute false s stream = .ioError stream
    ∧ ExternalEditorApi.execute_on_object false s g stream = .ioError stream :=
  ⟨rfl, rfl, rfl, rfl, rfl⟩

/-- C9 counterexample: a payload that fails to decode makes the wait panic
(`read`'s `unwrap` on the `from_str` failure), aborting the wait — it is
not surfaced as a recoverable error value, and the matching event behind it
is never reached. -/
theorem c9_counterexample :
    ExternalEditorApi.wait AnswerReturn.try_from
        [Inbound.payload "hello",
         Inbound.payload "\x7b\"messageID\": 5, \"returnID\": 5\x7d"]
      = .panicked "from_str unwrap" := rfl

/-- C9 (amended): the selective wait treats a successfully decoded but
non-matching event as normal control flow — no error, the loop just
continues on the rest of the stream — while a decode or transport failure
in an underlying read aborts the wait immediately by panicking (the wait
has no recoverable-error outcome at all). -/
theorem c9_amended_thm {α : Type} (tf : Answer → Option α) (i : Inbound)
    (rest : List Inbound) :
    (∀ a, ExternalEditorApi.read i = .ok a → tf a = none →
        ExternalEditorApi.wait tf (i :: rest)
          = ExternalEditorApi.wait tf rest)
    ∧ ∀ m, ExternalEditorApi.read i = .panicked m →
        ExternalEditorApi.wait tf (i :: rest) = .panicked m :=
  ⟨fun a h1 h2 => wait_cons_skip tf i rest a h1 h2,
   fun m h1 => wait_cons_panicked tf i rest m h1⟩

/-- C9 witness: a concrete Printed event is skipped without error, and a
concrete failed accept aborts the wait with a panic. -/
theorem c9_amended_witness :
    ExternalEditorApi.wait AnswerReturn.try_from
        [Inbound.payload "\x7b\"messageID\": 2, \"message\": \"hi\"\x7d",
         Inbound.payload "\x7b\"messageID\": 5, \"returnID\": 5\x7d"]
      = ExternalEditorApi.wait AnswerReturn.try_from
          [Inbound.payload "\x7b\"messageID\": 5, \"returnID\": 5\x7d"]
    ∧ ExternalEditorApi.wait AnswerReturn.try_from [Inbound.ioFail]
      = .panicked "io unwrap" :=
  ⟨(c9_amended_thm AnswerReturn.try_from _ _).1
      (Answer.AnswerPrint ⟨"hi"⟩) rfl rfl,
   (c9_amended_thm AnswerReturn.try_from _ _).2 "io unwrap" rfl⟩

/-- C10: the `Answer` decoder is not total over malformed input, universally
by category — every payload whose `messageID` lookup or `as_u64` conversion
fails (the key is absent or its value is not an unsigned integer) panics at
the `unwrap`; every inbound text that is not valid JSON panics at `read`'s
`from_str` `unwrap`; and for every recognized discriminant 0–7, every
payload on which that variant's derived deserializer errors (e.g.
discriminant 1 without `savePath`) panics at the `unwrap` of that result.
No malformed input yields a recoverable error value. -/
theorem c10_thm (v : Value) (s : String) :
    ((v.get "messageID").bind Value.as_u64 = none →
        Answer.deserialize v = .panicked "unwrap on None")
    ∧ (json_from_str s = none →
        ExternalEditorApi.read (Inbound.payload s)
          = .panicked "from_str unwrap")
    ∧ (∀ e, (v.get "messageID").bind Value.as_u64 = some 0 →
        AnswerNewObject.deserialize v = .error e →
        Answer.deserialize v = .panicked "unwrap on Err")
    ∧ (∀ e, (v.get "messageID").bind Value.as_u64 = some 1 →
        AnswerReload.deserialize v = .error e →
        Answer.deserialize v = .panicked "unwrap on Err")
    ∧ (∀ e, (v.get "messageID").bind Value.as_u64 = some 2 →
        AnswerPrint.deserialize v = .error e →
        Answer.deserialize v = .panicked "unwrap on Err")
    ∧ (∀ e, (v.get "messageID").bind Value.as_u64 = some 3 →
        AnswerError.deserialize v = .error e →
        Answer.deserialize v = .panicked "unwrap on Err")
    ∧ (∀ e, (v.get "messageID").bind Value.as_u64 = some 4 →
        AnswerCustomMessage.deserialize v = .error e →
        Answer.deserialize v = .panicked "unwrap on Err")
    ∧ (∀ e, (v.get "messageID").bind Value.as_u64 = some 5 →
        AnswerReturn.deserialize v = .error e →
        Answer.deserialize v = .panicked "unwrap on Err")
    ∧ (∀ e, (v.get "messageID").bind Value.as_u64 = some 6 →
        AnswerGameSaved.deserialize v = .error e →
        Answer.deserialize v = .panicked "unwrap on Err")
    ∧ ∀ e, (v.get "messageID").bind Value.as_u64 = some 7 →
        AnswerObjectCreated.deserialize v = .error e →
        Answer.deserialize v = .panicked "unwrap on Err" := by
  refine ⟨?_, ?_, ?_, ?_, ?_, ?_, ?_, ?_, ?_, ?_⟩
  · intro h
    unfold Answer.deserialize
    rw [h]
  · intro h
    simp only [ExternalEditorApi.read, h]
  all_goals
    intro e h1 h2
    unfold Answer.deserialize
    rw [h1, h2]
    rfl

/-- C10 witness: one concrete payload per malformed category — a payload
with no `messageID`, a string-valued and a negative `messageID`, inbound
text that is not JSON, and discriminant 1 without `savePath` — each
panics. -/
theorem c10_witness :
    Answer.deserialize (Value.obj [("foo", Value.null)])
      = .panicked "unwrap on None"
    ∧ Answer.deserialize (Value.obj [("messageID", Value.str "1")])
      = .panicked "unwrap on None"
    ∧ Answer.deserialize (Value.obj [("messageID", Value.num (-1))])
      = .panicked "unwrap on None"
    ∧ ExternalEditorApi.read (Inbound.payload "not json")
      = .panicked "from_str unwrap"
    ∧ Answer.deserialize (Value.obj [("messageID", Value.num 1)])
      = .panicked "unwrap on Err" := by
  refine ⟨?_, ?_, ?_, ?_, ?_⟩
  · exact (c10_thm (Value.obj [("foo", Value.null)]) "").1 rfl
  · exact (c10_thm (Value.obj [("messageID", Value.str "1")]) "").1 rfl
  · exact (c10_thm (Value.obj [("messageID", Value.num (-1))]) "").1 rfl
  · exact (c10_thm Value.null "not json").2.1 rfl
  · exact (c10_thm (Value.obj [("messageID", Value.num 1)]) "").2.2.2.1
      "missing field savePath" rfl rfl
